import Mathlib

/-!
Verification development for the network-panel search scope
(`front_end/panels/network/NetworkSearchScope.ts`).

The TypeScript source is shallowly embedded:

* `SearchConfig`, `NetworkRequest`, `NameValue`, `SearchMatch` model the
  data the searched code reads from its collaborators.
* The JavaScript regular-expression engine is abstracted as a function
  `RegExpEngine` returning the first match (index, length) of a pattern
  (with flags) in a subject string; `literalEngine` instantiates it with
  the exact semantics `new RegExp(tok, flags)` has on tokens without
  metacharacters (plain substring search, optionally case-insensitive).
* `stringMatchesQuery` mirrors the closure of the same name (source
  lines 90-102), including the JavaScript truthiness test
  `!match.index`, which also fires when `match.index === 0`.
* `performSearch` / `searchRequestRun` mirror the orchestration
  (lines 28-53) and `_searchRequest` (lines 55-84).  Calls to the
  `Progress` token and to the two callbacks are recorded as an `Event`
  trace.  `Promise.all` returns task values in task-creation order
  regardless of resolution timing, so the joined value list is the list
  of per-request outcomes in request order; per-task `isCanceled()`
  poll results are supplied by the oracle `taskCanceled`, and the final
  poll after the join by `finalCanceled`.
-/

/-- A header name/value pair (`SDK.NetworkRequest.NameValue`). -/
structure NameValue where
  name : String
  value : String
deriving DecidableEq, Repr

/-- One body match produced by the external content search
(`TextUtils.ContentProvider.SearchMatch`). -/
structure SearchMatch where
  lineNumber : Nat
  lineContent : String
deriving DecidableEq, Repr

/-- The parts of a network request the search scope reads: its URL, its
display name, whether its content type is a text type, and its two
header lists. -/
structure NetworkRequest where
  url : String
  displayName : String
  isTextType : Bool
  requestHeaders : List NameValue
  responseHeaders : List NameValue
deriving DecidableEq, Repr

/-- The query configuration (`Search.SearchConfig.SearchConfig`):
`queries()` is the ordered token list, `query()` the raw query string
forwarded to the body search. -/
structure SearchConfig where
  queries : List String
  query : String
  ignoreCase : Bool
  isRegex : Bool
deriving DecidableEq, Repr

/-- Abstraction of the JavaScript regular-expression engine: given a
pattern, a flag string and a subject, return the first match as
(index, length of the matched text), or `none` when there is no match
(`string.substr(pos).match(regExp)`). -/
def RegExpEngine : Type := String → String → String → Option (Nat × Nat)

/-- JavaScript `s.substr(pos)`: the suffix of `s` starting at character
position `pos` (empty when `pos` is past the end). -/
def substrFrom (s : String) (pos : Nat) : String := ⟨s.data.drop pos⟩

/-- Whether `p` occurs at the very start of `s` (character-wise). -/
def leadsWith : List Char → List Char → Bool
  | [], _ => true
  | _ :: _, [] => false
  | c :: p, d :: s => c == d && leadsWith p s

/-- Index of the first occurrence of `p` in `s`, if any. -/
def firstOccur (p : List Char) : List Char → Option Nat
  | [] => if leadsWith p [] then some 0 else none
  | d :: s => if leadsWith p (d :: s) then some 0 else (firstOccur p s).map (· + 1)

/-- The regular-expression engine restricted to literal patterns: what
`new RegExp(tok, flags)` does when `tok` contains no metacharacters.
Flag string "i" lowercases both sides; the matched text of a literal
pattern has the pattern's own length. -/
def literalEngine : RegExpEngine := fun pattern flags s =>
  let norm := fun (cs : List Char) => if flags = "i" then cs.map Char.toLower else cs
  (firstOccur (norm pattern.data) (norm s.data)).map (fun i => (i, pattern.length))

/-- The flag string built at source line 91:
`searchConfig.ignoreCase() ? 'i' : ''`. -/
def flagsOf (c : SearchConfig) : String := if c.ignoreCase then "i" else ""

/-- The per-token loop of `stringMatchesQuery` (source lines 93-100).
For each token in order the remaining substring is searched; the JS
test `!match || !match.index` rejects both a failed search and a match
whose index is `0` (`0` is falsy). -/
def matchLoop (engine : RegExpEngine) (flags : String) :
    List String → String → Nat → Bool
  | [], _, _ => true
  | q :: qs, s, pos =>
    match engine q flags (substrFrom s pos) with
    | none => false
    | some (i, len) => if i = 0 then false else matchLoop engine flags qs s (pos + i + len)

/-- `stringMatchesQuery` (source lines 90-102): run the token loop from
position 0 with the tokens and flags taken from the configuration. -/
def stringMatchesQuery (engine : RegExpEngine) (c : SearchConfig) (s : String) : Bool :=
  matchLoop engine (flagsOf c) c.queries s 0

/-- The trace of per-token engine answers observed by `matchLoop`
before it stops (it stops early at a failed search or a zero-offset
match). -/
def runSteps (engine : RegExpEngine) (flags : String) :
    List String → String → Nat → List (Option (Nat × Nat))
  | [], _, _ => []
  | q :: qs, s, pos =>
    match engine q flags (substrFrom s pos) with
    | none => [none]
    | some (i, len) =>
        some (i, len) :: (if i = 0 then [] else runSteps engine flags qs s (pos + i + len))

/-- `headerMatchesQuery` (source lines 86-88): match the string
`"name: value"`. -/
def headerMatchesQuery (engine : RegExpEngine) (c : SearchConfig) (h : NameValue) : Bool :=
  stringMatchesQuery engine c (h.name ++ ": " ++ h.value)

/-- One discovered match location (`UIRequestLocation`), the tagged
nullable-field record of the source (lines 109-125). -/
structure UIRequestLocation where
  request : NetworkRequest
  requestHeader : Option NameValue
  responseHeader : Option NameValue
  searchMatch : Option SearchMatch
  isUrlMatch : Bool
deriving DecidableEq, Repr

namespace UIRequestLocation

/-- Static constructor `requestHeaderMatch` (source lines 127-130). -/
def requestHeaderMatch (request : NetworkRequest) (header : Option NameValue) :
    UIRequestLocation :=
  ⟨request, header, none, none, false⟩

/-- Static constructor `responseHeaderMatch` (source lines 132-135). -/
def responseHeaderMatch (request : NetworkRequest) (header : Option NameValue) :
    UIRequestLocation :=
  ⟨request, none, header, none, false⟩

/-- Static constructor `bodyMatch` (source lines 137-140). -/
def bodyMatch (request : NetworkRequest) (searchMatch : Option SearchMatch) :
    UIRequestLocation :=
  ⟨request, none, none, searchMatch, false⟩

/-- Static constructor `urlMatch` (source lines 142-144). -/
def urlMatch (request : NetworkRequest) : UIRequestLocation :=
  ⟨request, none, none, none, true⟩

end UIRequestLocation

/-- Number of discriminating fields that are set on a location. -/
def variantCount (l : UIRequestLocation) : Nat :=
  (if l.isUrlMatch then 1 else 0) + (if l.requestHeader.isSome then 1 else 0) +
    (if l.responseHeader.isSome then 1 else 0) + (if l.searchMatch.isSome then 1 else 0)

/-- Kind rank of a location in the order the search discovers them:
URL match, request header, response header, body match. -/
def locKind (l : UIRequestLocation) : Nat :=
  if l.isUrlMatch then 0
  else if l.requestHeader.isSome then 1
  else if l.responseHeader.isSome then 2
  else 3

/-- One per-request search result (`NetworkSearchResult`,
source lines 147-202). -/
structure NetworkSearchResult where
  request : NetworkRequest
  locations : List UIRequestLocation
deriving DecidableEq, Repr

namespace NetworkSearchResult

/-- `matchesCount()` (source lines 156-158). -/
def matchesCount (res : NetworkSearchResult) : Nat := res.locations.length

/-- `label()` (source lines 160-162). -/
def label (res : NetworkSearchResult) : String := res.request.displayName

/-- `matchLineContent(index)` (source lines 172-182).  The JS code
indexes the location array and finally casts `searchMatch` to
non-null; out-of-range indexing and a null `searchMatch` are modelled
as `none`. -/
def matchLineContent (res : NetworkSearchResult) (index : Nat) : Option String :=
  match res.locations[index]? with
  | none => none
  | some l =>
    if l.isUrlMatch then some res.request.url
    else
      match l.requestHeader <|> l.responseHeader with
      | some h => some h.value
      | none => l.searchMatch.map (·.lineContent)

/-- `matchLabel(index)` (source lines 188-201).  The URL case yields
the localized string "URL", header cases yield `"name:"`; the body
case returns the number `lineNumber + 1` (the source annotates this
with `@ts-expect-error`), modelled by the sum type. -/
def matchLabel (res : NetworkSearchResult) (index : Nat) : Option (String ⊕ Nat) :=
  match res.locations[index]? with
  | none => none
  | some l =>
    if l.isUrlMatch then some (Sum.inl "URL")
    else
      match l.requestHeader <|> l.responseHeader with
      | some h => some (Sum.inl (h.name ++ ":"))
      | none => l.searchMatch.map (fun m => Sum.inr (m.lineNumber + 1))

end NetworkSearchResult

/-- The external `request.searchInContent(query, caseSensitive,
isRegex)` operation, abstracted as an oracle. -/
def SearchInContent : Type :=
  NetworkRequest → String → Bool → Bool → List SearchMatch

/-- Body matches gathered at source lines 58-62: the content search
runs only for text-typed requests, with `query()`, case sensitivity
`!ignoreCase()` and the `isRegex()` flag. -/
def bodyMatchesOf (sic : SearchInContent) (c : SearchConfig) (r : NetworkRequest) :
    List SearchMatch :=
  if r.isTextType then sic r c.query (!c.ignoreCase) c.isRegex else []

/-- URL location, pushed first (source lines 67-69). -/
def urlLocations (engine : RegExpEngine) (c : SearchConfig) (r : NetworkRequest) :
    List UIRequestLocation :=
  if stringMatchesQuery engine c r.url then [UIRequestLocation.urlMatch r] else []

/-- Matching request headers, pushed next in their given order
(source lines 70-74). -/
def requestHeaderLocations (engine : RegExpEngine) (c : SearchConfig)
    (r : NetworkRequest) : List UIRequestLocation :=
  (r.requestHeaders.filter (headerMatchesQuery engine c)).map
    (fun h => UIRequestLocation.requestHeaderMatch r (some h))

/-- Matching response headers, pushed next in their given order
(source lines 75-79). -/
def responseHeaderLocations (engine : RegExpEngine) (c : SearchConfig)
    (r : NetworkRequest) : List UIRequestLocation :=
  (r.responseHeaders.filter (headerMatchesQuery engine c)).map
    (fun h => UIRequestLocation.responseHeaderMatch r (some h))

/-- Body-match locations, pushed last in discovery order
(source lines 80-82). -/
def bodyLocations (r : NetworkRequest) (bodyMatches : List SearchMatch) :
    List UIRequestLocation :=
  bodyMatches.map (fun m => UIRequestLocation.bodyMatch r (some m))

/-- The location list built by `_searchRequest` (source lines 66-82):
URL match, then request headers, then response headers, then body
matches. -/
def searchRequestLocations (engine : RegExpEngine) (c : SearchConfig)
    (r : NetworkRequest) (bodyMatches : List SearchMatch) : List UIRequestLocation :=
  urlLocations engine c r ++ requestHeaderLocations engine c r ++
    responseHeaderLocations engine c r ++ bodyLocations r bodyMatches

/-- Observable calls made during one search run: the `Progress` token
operations and the two callbacks. -/
inductive Event where
  | setTotalWork : Nat → Event
  | worked : Event
  | result : NetworkSearchResult → Event
  | progressDone : Event
  | finished : Bool → Event
deriving DecidableEq, Repr

namespace Event

/-- Whether an event is an `onResult` callback invocation. -/
def isResult : Event → Bool
  | .result _ => true
  | _ => false

/-- Whether an event is an `onFinished` callback invocation. -/
def isFinished : Event → Bool
  | .finished _ => true
  | _ => false

/-- Whether an event is a `progress.worked()` call. -/
def isWorked : Event → Bool
  | .worked => true
  | _ => false

/-- Whether an event is a `progress.setTotalWork(n)` call. -/
def isSetTotalWork : Event → Bool
  | .setTotalWork _ => true
  | _ => false

end Event

/-- One `_searchRequest` task (source lines 55-84): compute the body
matches, poll `isCanceled()` (the oracle value `canceled`); when
canceled return no events and no result, otherwise call
`progress.worked()` and return the result wrapping all discovered
locations. -/
def searchRequestRun (engine : RegExpEngine) (sic : SearchInContent) (c : SearchConfig)
    (r : NetworkRequest) (canceled : Bool) :
    List Event × Option NetworkSearchResult :=
  let body := bodyMatchesOf sic c r
  if canceled then ([], none)
  else ([Event.worked], some ⟨r, searchRequestLocations engine c r body⟩)

/-- The per-candidate task fan-out (source lines 36-39): one
`_searchRequest` per filtered request, in request order; task `i`
observes `taskCanceled i` at its cancellation poll. -/
def taskRuns (engine : RegExpEngine) (sic : SearchInContent) (c : SearchConfig)
    (taskCanceled : Nat → Bool) : Nat → List NetworkRequest →
    List (List Event × Option NetworkSearchResult)
  | _, [] => []
  | i, r :: rs =>
      searchRequestRun engine sic c r (taskCanceled i) ::
        taskRuns engine sic c taskCanceled (i + 1) rs

/-- The comparator `r1.label().localeCompare(r2.label()) <= 0`,
modelled as character-wise lexicographic comparison of the labels. -/
def charListLE : List Char → List Char → Bool
  | [], _ => true
  | _ :: _, [] => false
  | a :: as, b :: bs => if a < b then true else if b < a then false else charListLE as bs

/-- Result comparator used by the sort at source line 46. -/
def resultLE (r1 r2 : NetworkSearchResult) : Bool :=
  charListLE r1.label.data r2.label.data

/-- The sort at source line 46
(`results.sort((r1, r2) => r1.label().localeCompare(r2.label()))`):
a stable sort of the joined results by the label comparator.  Any
stable sorting algorithm computes the same list; insertion sort is
used so the model stays structurally recursive. -/
def sortResults (results : List NetworkSearchResult) : List NetworkSearchResult :=
  List.insertionSort (fun r1 r2 => resultLE r1 r2 = true) results

/-- The emission phase of an uncanceled run (source lines 46-52): sort
results ascending by label, invoke `onResult` for each result with a
positive match count, then `progress.done()` and `onFinished(true)`. -/
def emitEvents (results : List NetworkSearchResult) : List Event :=
  ((sortResults results).filter (fun res => 0 < res.matchesCount)).map Event.result ++
    [Event.progressDone, Event.finished true]

/-- `performSearch` (source lines 28-53) as an event trace: filter the
requests by the path predicate, announce the total work, run the
per-candidate tasks, join, poll `isCanceled()` one final time
(`finalCanceled`); when canceled call `onFinished(false)` and stop,
otherwise discard absent results and emit. -/
def performSearch (engine : RegExpEngine) (sic : SearchInContent)
    (fileQuery : String → Bool) (c : SearchConfig) (requests : List NetworkRequest)
    (taskCanceled : Nat → Bool) (finalCanceled : Bool) : List Event :=
  let filtered := requests.filter (fun r => fileQuery r.url)
  let runs := taskRuns engine sic c taskCanceled 0 filtered
  let results := (runs.map Prod.snd).filterMap id
  Event.setTotalWork filtered.length ::
    ((runs.map Prod.fst).flatten ++
      (if finalCanceled then [Event.finished false] else emitEvents results))

/-- The results delivered to `onResult`, in delivery order. -/
def emittedResults (trace : List Event) : List NetworkSearchResult :=
  trace.filterMap (fun e => match e with | Event.result res => some res | _ => none)

/-! Concrete fixtures used to instantiate the claims. -/

/-- Single-token query "x". -/
def cfgX : SearchConfig := ⟨["x"], "x", false, false⟩

/-- Two-token query ["b", "a"]. -/
def cfgBA : SearchConfig := ⟨["b", "a"], "b a", false, false⟩

/-- Query with an empty token list. -/
def cfg0 : SearchConfig := ⟨[], "", false, false⟩

/-- Single-token query "u". -/
def cfgEx : SearchConfig := ⟨["u"], "u", false, false⟩

/-- A request labelled `a.js`. -/
def rA : NetworkRequest := ⟨"u-a", "a.js", false, [], []⟩

/-- A request labelled `b.js`. -/
def rB : NetworkRequest := ⟨"u-b", "b.js", false, [], []⟩

/-- A request labelled `c.js`. -/
def rC : NetworkRequest := ⟨"u-c", "c.js", false, [], []⟩

/-- A header whose `"name: value"` string matches query "u" at a
nonzero offset. -/
def hEx : NameValue := ⟨"h", "xu"⟩

/-- One body match. -/
def mEx : SearchMatch := ⟨7, "line xu"⟩

/-- A request whose URL and single request header match query "u". -/
def rEx : NetworkRequest := ⟨"xu", "ex.js", true, [hEx], []⟩

/-- A content search oracle that finds nothing. -/
def sicNone : SearchInContent := fun _ _ _ _ => []

/-- The result the search produces for `rA` under the empty query. -/
def resA0 : NetworkSearchResult := ⟨rA, [UIRequestLocation.urlMatch rA]⟩

/-! Helper lemmas about the token loop. -/

/-- If the loop observes a zero-offset match at any step, it returns
false. -/
theorem matchLoop_eq_false_of_zero_step (engine : RegExpEngine) (flags : String) :
    ∀ (qs : List String) (s : String) (pos len : Nat),
      some (0, len) ∈ runSteps engine flags qs s pos →
      matchLoop engine flags qs s pos = false
  | [], s, pos, len, h => by simp [runSteps] at h
  | q :: qs, s, pos, len, h => by
      rw [runSteps] at h
      rw [matchLoop]
      cases hm : engine q flags (substrFrom s pos) with
      | none => rfl
      | some p =>
          obtain ⟨i, l⟩ := p
          rw [hm] at h
          by_cases hi : i = 0
          · simp [hi]
          · simp only [if_neg hi]
            rcases List.mem_cons.mp h with h1 | h2
            · exact absurd (by injection h1 with h1'; injection h1' with h0 _; exact h0.symm) hi
            · rw [if_neg hi] at h2
              exact matchLoop_eq_false_of_zero_step engine flags qs s _ len h2

/-- If the loop observes a failed token search at any step, it returns
false. -/
theorem matchLoop_eq_false_of_none_step (engine : RegExpEngine) (flags : String) :
    ∀ (qs : List String) (s : String) (pos : Nat),
      none ∈ runSteps engine flags qs s pos →
      matchLoop engine flags qs s pos = false
  | [], s, pos, h => by simp [runSteps] at h
  | q :: qs, s, pos, h => by
      rw [runSteps] at h
      rw [matchLoop]
      cases hm : engine q flags (substrFrom s pos) with
      | none => rfl
      | some p =>
          obtain ⟨i, l⟩ := p
          rw [hm] at h
          by_cases hi : i = 0
          · simp [hi]
          · simp only [if_neg hi]
            rcases List.mem_cons.mp h with h1 | h2
            · exact absurd h1.symm (by simp)
            · rw [if_neg hi] at h2
              exact matchLoop_eq_false_of_none_step engine flags qs s _ h2

/-- C1: for every query with at least one token and every string, if
some token's first occurrence in the remaining substring during the
matching run lies at offset 0, `stringMatchesQuery` reports the string
as non-matching. -/
theorem stringMatchesQuery_false_of_zero_offset (engine : RegExpEngine)
    (c : SearchConfig) (s : String) (len : Nat) (hne : c.queries ≠ [])
    (hmem : some (0, len) ∈ runSteps engine (flagsOf c) c.queries s 0) :
    stringMatchesQuery engine c s = false :=
  matchLoop_eq_false_of_zero_step engine (flagsOf c) c.queries s 0 len hmem

/-- Witness for C1: the single-token query "x" first matches "xyz" at
position 0, and the matcher reports non-match. -/
theorem stringMatchesQuery_false_of_zero_offset_witness :
    cfgX.queries ≠ [] ∧ some (0, 1) ∈ runSteps literalEngine (flagsOf cfgX) cfgX.queries "xyz" 0 ∧
      stringMatchesQuery literalEngine cfgX "xyz" = false :=
  ⟨by decide, by decide,
    stringMatchesQuery_false_of_zero_offset literalEngine cfgX "xyz" 1 (by decide) (by decide)⟩

/-- C6: the matcher searches tokens sequentially, failing as soon as a
token has no occurrence in the remaining substring; consequently the
token sequence ["b", "a"] does not match "ab". -/
theorem token_order_sensitivity :
    (∀ (engine : RegExpEngine) (c : SearchConfig) (s : String),
        none ∈ runSteps engine (flagsOf c) c.queries s 0 →
        stringMatchesQuery engine c s = false) ∧
      stringMatchesQuery literalEngine cfgBA "ab" = false :=
  ⟨fun engine c s h => matchLoop_eq_false_of_none_step engine (flagsOf c) c.queries s 0 h,
    by decide⟩

/-- Witness for C6: on ["b", "a"] against "ab" the second token fails
to occur after the first token's match, and the matcher rejects. -/
theorem token_order_sensitivity_witness :
    none ∈ runSteps literalEngine (flagsOf cfgBA) cfgBA.queries "ab" 0 ∧
      stringMatchesQuery literalEngine cfgBA "ab" = false :=
  ⟨by decide, token_order_sensitivity.1 literalEngine cfgBA "ab" (by decide)⟩

/-- C7: a query whose token list is empty matches every string. -/
theorem empty_query_matches_everything (engine : RegExpEngine) (c : SearchConfig)
    (s : String) (h : c.queries = []) : stringMatchesQuery engine c s = true := by
  rw [stringMatchesQuery, h, matchLoop]

/-- Witness for C7: the zero-token query matches an arbitrary string. -/
theorem empty_query_matches_everything_witness :
    cfg0.queries = [] ∧ stringMatchesQuery literalEngine cfg0 "any string at all" = true :=
  ⟨rfl, empty_query_matches_everything literalEngine cfg0 "any string at all" rfl⟩

/-- C10: the `isRegex` flag never reaches URL or header matching: the
regular-expression flags depend only on `ignoreCase`,
`stringMatchesQuery` is unchanged by any rewrite of `isRegex`, and a
rewrite of `isRegex` changes a per-request search task only through
the final argument handed to the external body-content search. -/
theorem isRegex_only_affects_body_search :
    (∀ (c : SearchConfig) (b : Bool), flagsOf { c with isRegex := b } = flagsOf c) ∧
      (∀ (engine : RegExpEngine) (c : SearchConfig) (b : Bool) (s : String),
        stringMatchesQuery engine { c with isRegex := b } s = stringMatchesQuery engine c s) ∧
      (∀ (engine : RegExpEngine) (sic : SearchInContent) (c : SearchConfig) (b : Bool)
          (r : NetworkRequest) (canceled : Bool),
        searchRequestRun engine sic { c with isRegex := b } r canceled =
          searchRequestRun engine (fun r' q cs _ => sic r' q cs b) c r canceled) :=
  ⟨fun _ _ => rfl, fun _ _ _ _ => rfl, fun _ _ _ _ _ _ => rfl⟩

/-! Helper lemmas about the search-run trace. -/

/-- The events of one per-request task: none when canceled, one
`worked()` call otherwise. -/
theorem searchRequestRun_fst (engine : RegExpEngine) (sic : SearchInContent)
    (c : SearchConfig) (r : NetworkRequest) (canceled : Bool) :
    (searchRequestRun engine sic c r canceled).fst =
      if canceled then [] else [Event.worked] := by
  cases canceled <;> rfl

/-- Every event produced inside the per-request tasks is a `worked()`
call. -/
theorem eq_worked_of_mem_taskEvents (engine : RegExpEngine) (sic : SearchInContent)
    (c : SearchConfig) (tc : Nat → Bool) :
    ∀ (i : Nat) (rs : List NetworkRequest) (e : Event),
      e ∈ ((taskRuns engine sic c tc i rs).map Prod.fst).flatten → e = Event.worked
  | _, [], e, h => by simp [taskRuns] at h
  | i, r :: rs, e, h => by
      rw [taskRuns] at h
      simp only [List.map_cons, List.flatten_cons, List.mem_append] at h
      rcases h with h | h
      · rw [searchRequestRun_fst] at h
        cases hb : tc i <;> rw [hb] at h <;> simp at h
        exact h
      · exact eq_worked_of_mem_taskEvents engine sic c tc (i + 1) rs e h

/-- Task events contain no event of a kind other than `worked()`. -/
theorem countP_taskEvents_eq_zero (engine : RegExpEngine) (sic : SearchInContent)
    (c : SearchConfig) (tc : Nat → Bool) (i : Nat) (rs : List NetworkRequest)
    (p : Event → Bool) (hp : p Event.worked = false) :
    (((taskRuns engine sic c tc i rs).map Prod.fst).flatten).countP p = 0 := by
  rw [List.countP_eq_zero]
  intro e he
  rw [eq_worked_of_mem_taskEvents engine sic c tc i rs e he, hp]
  simp

/-- In a run where no task observes cancellation, the tasks perform
one `worked()` call per request. -/
theorem countP_isWorked_taskEvents (engine : RegExpEngine) (sic : SearchInContent)
    (c : SearchConfig) (tc : Nat → Bool) (htc : ∀ j, tc j = false) :
    ∀ (i : Nat) (rs : List NetworkRequest),
      (((taskRuns engine sic c tc i rs).map Prod.fst).flatten).countP Event.isWorked
        = rs.length
  | _, [] => by simp [taskRuns]
  | i, r :: rs => by
      rw [taskRuns]
      simp only [List.map_cons, List.flatten_cons, List.countP_append, List.length_cons]
      rw [searchRequestRun_fst, htc i, countP_isWorked_taskEvents engine sic c tc htc (i + 1) rs]
      simp [List.countP_cons, Event.isWorked]
      omega

/-- Results delivered by the emission phase: the sorted join output
restricted to results with at least one location. -/
theorem emittedResults_emitEvents (results : List NetworkSearchResult) :
    emittedResults (emitEvents results) =
      (sortResults results).filter (fun res => 0 < res.matchesCount) := by
  rw [emittedResults, emitEvents, List.filterMap_append, List.filterMap_map]
  simp [Function.comp_def, List.filterMap_some]

/-- The emission phase calls `onFinished` exactly once. -/
theorem countP_isFinished_emitEvents (results : List NetworkSearchResult) :
    (emitEvents results).countP Event.isFinished = 1 := by
  rw [emitEvents, List.countP_append, List.countP_map]
  simp [Function.comp_def, Event.isFinished, List.countP_cons]

/-- The emission phase performs no progress calls. -/
theorem countP_emitEvents_eq_zero (results : List NetworkSearchResult)
    (p : Event → Bool) (hres : ∀ res, p (Event.result res) = false)
    (hdone : p Event.progressDone = false) (hfin : p (Event.finished true) = false) :
    (emitEvents results).countP p = 0 := by
  rw [emitEvents, List.countP_append, List.countP_map]
  simp [Function.comp_def, hres, hdone, hfin, List.countP_cons]

/-- C2: when the final cancellation poll after the join reports true,
`performSearch` never invokes `onResult`, invokes `onFinished` exactly
once, and that invocation passes `false`. -/
theorem cancellation_suppresses_output
    (engine : RegExpEngine) (sic : SearchInContent) (fileQuery : String → Bool)
    (c : SearchConfig) (requests : List NetworkRequest) (taskCanceled : Nat → Bool)
    (finalCanceled : Bool) (hc : finalCanceled = true) :
    (performSearch engine sic fileQuery c requests taskCanceled finalCanceled).countP
        Event.isResult = 0 ∧
      (performSearch engine sic fileQuery c requests taskCanceled finalCanceled).countP
        Event.isFinished = 1 ∧
      Event.finished false ∈
        performSearch engine sic fileQuery c requests taskCanceled finalCanceled := by
  subst hc
  refine ⟨?_, ?_, ?_⟩
  · simp [performSearch, List.countP_cons, Event.isResult,
      countP_taskEvents_eq_zero engine sic c taskCanceled 0 _ Event.isResult rfl]
  · simp [performSearch, List.countP_cons, Event.isFinished,
      countP_taskEvents_eq_zero engine sic c taskCanceled 0 _ Event.isFinished rfl]
  · simp [performSearch]

/-- Witness for C2: a concrete run over one request with the final
poll canceled emits nothing and finishes once with `false`. -/
theorem cancellation_suppresses_output_witness :
    (performSearch literalEngine sicNone (fun _ => true) cfg0 [rA] (fun _ => false) true).countP
        Event.isResult = 0 ∧
      (performSearch literalEngine sicNone (fun _ => true) cfg0 [rA] (fun _ => false)
          true).countP Event.isFinished = 1 ∧
      Event.finished false ∈
        performSearch literalEngine sicNone (fun _ => true) cfg0 [rA] (fun _ => false) true :=
  cancellation_suppresses_output literalEngine sicNone (fun _ => true) cfg0 [rA]
    (fun _ => false) true rfl

/-- Counterexample to C3 as stated: in a run whose single per-request
task observes cancellation, `worked()` is never called although the
path filter left one candidate, so "`worked()` is called exactly N
times for every run" fails. -/
theorem progress_accounting_cex :
    ¬ ((performSearch literalEngine sicNone (fun _ => true) cfg0 [rA] (fun _ => true)
            true).countP Event.isSetTotalWork = 1 ∧
        (performSearch literalEngine sicNone (fun _ => true) cfg0 [rA] (fun _ => true)
            true).countP Event.isWorked
          = ([rA].filter (fun r => (fun _ => true) r.url)).length) := by
  decide

/-- C3 (amended): `setTotalWork(N)` is called exactly once in every
run, with N the number of filtered candidates; and in every run in
which no per-candidate cancellation poll observes true, `worked()` is
called exactly N times. -/
theorem progress_accounting
    (engine : RegExpEngine) (sic : SearchInContent) (fileQuery : String → Bool)
    (c : SearchConfig) (requests : List NetworkRequest) (taskCanceled : Nat → Bool)
    (finalCanceled : Bool) :
    (performSearch engine sic fileQuery c requests taskCanceled finalCanceled).countP
        Event.isSetTotalWork = 1 ∧
      Event.setTotalWork (requests.filter (fun r => fileQuery r.url)).length ∈
        performSearch engine sic fileQuery c requests taskCanceled finalCanceled ∧
      ((∀ j, taskCanceled j = false) →
        (performSearch engine sic fileQuery c requests taskCanceled finalCanceled).countP
            Event.isWorked
          = (requests.filter (fun r => fileQuery r.url)).length) := by
  refine ⟨?_, ?_, fun htc => ?_⟩
  · cases finalCanceled
    · simp [performSearch, List.countP_cons, Event.isSetTotalWork,
        countP_taskEvents_eq_zero engine sic c taskCanceled 0 _ Event.isSetTotalWork rfl,
        countP_emitEvents_eq_zero _ Event.isSetTotalWork (fun _ => rfl) rfl rfl]
    · simp [performSearch, List.countP_cons, Event.isSetTotalWork,
        countP_taskEvents_eq_zero engine sic c taskCanceled 0 _ Event.isSetTotalWork rfl]
  · simp [performSearch]
  · cases finalCanceled
    · simp [performSearch, List.countP_cons, Event.isWorked,
        countP_isWorked_taskEvents engine sic c taskCanceled htc 0,
        countP_emitEvents_eq_zero _ Event.isWorked (fun _ => rfl) rfl rfl]
    · simp [performSearch, List.countP_cons, Event.isWorked,
        countP_isWorked_taskEvents engine sic c taskCanceled htc 0]

/-- Witness for C3 (amended): a concrete uncanceled run over one
candidate announces total work 1 and performs one work increment. -/
theorem progress_accounting_witness :
    (performSearch literalEngine sicNone (fun _ => true) cfg0 [rA] (fun _ => false)
        false).countP Event.isSetTotalWork = 1 ∧
      Event.setTotalWork ([rA].filter (fun r => (fun _ => true) r.url)).length ∈
        performSearch literalEngine sicNone (fun _ => true) cfg0 [rA] (fun _ => false) false ∧
      (performSearch literalEngine sicNone (fun _ => true) cfg0 [rA] (fun _ => false)
          false).countP Event.isWorked
        = ([rA].filter (fun r => (fun _ => true) r.url)).length := by
  obtain ⟨h1, h2, h3⟩ :=
    progress_accounting literalEngine sicNone (fun _ => true) cfg0 [rA] (fun _ => false) false
  exact ⟨h1, h2, h3 (fun j => rfl)⟩

/-! The label comparator is a total preorder. -/

/-- Totality of the lexicographic comparator. -/
theorem charListLE_total : ∀ xs ys : List Char, charListLE xs ys = true ∨ charListLE ys xs = true
  | [], _ => Or.inl rfl
  | _ :: _, [] => Or.inr rfl
  | x :: xs, y :: ys => by
      rw [charListLE, charListLE]
      rcases lt_trichotomy x y with h | h | h
      · left; simp [h]
      · subst h
        simp only [lt_irrefl, if_false]
        exact charListLE_total xs ys
      · right; simp [h]

/-- Transitivity of the lexicographic comparator. -/
theorem charListLE_trans :
    ∀ xs ys zs : List Char,
      charListLE xs ys = true → charListLE ys zs = true → charListLE xs zs = true
  | [], _, _, _, _ => rfl
  | _ :: _, [], _, h1, _ => by simp [charListLE] at h1
  | _ :: _, _ :: _, [], _, h2 => by simp [charListLE] at h2
  | x :: xs, y :: ys, z :: zs, h1, h2 => by
      rw [charListLE] at h1 h2 ⊢
      rcases lt_trichotomy x y with hxy | hxy | hxy
      · rcases lt_trichotomy y z with hyz | hyz | hyz
        · simp [lt_trans hxy hyz]
        · subst hyz; simp [hxy]
        · rw [if_neg (lt_asymm hyz), if_pos hyz] at h2
          exact absurd h2 (by simp)
      · subst hxy
        rw [if_neg (lt_irrefl x), if_neg (lt_irrefl x)] at h1
        rcases lt_trichotomy x z with hxz | hxz | hxz
        · simp [hxz]
        · subst hxz
          rw [if_neg (lt_irrefl x), if_neg (lt_irrefl x)] at h2 ⊢
          exact charListLE_trans xs ys zs h1 h2
        · rw [if_neg (lt_asymm hxz), if_pos hxz] at h2
          exact absurd h2 (by simp)
      · rw [if_neg (lt_asymm hxy), if_pos hxy] at h1
        exact absurd h1 (by simp)

/-- Totality of the result comparator. -/
theorem resultLE_total (a b : NetworkSearchResult) : resultLE a b = true ∨ resultLE b a = true :=
  charListLE_total a.label.data b.label.data

/-- Transitivity of the result comparator. -/
theorem resultLE_trans (a b c : NetworkSearchResult) (h1 : resultLE a b = true)
    (h2 : resultLE b c = true) : resultLE a c = true :=
  charListLE_trans a.label.data b.label.data c.label.data h1 h2

/-- The results an uncanceled run delivers: the non-null join outputs,
sorted, restricted to results with at least one location. -/
theorem emittedResults_performSearch (engine : RegExpEngine) (sic : SearchInContent)
    (fileQuery : String → Bool) (c : SearchConfig) (requests : List NetworkRequest)
    (taskCanceled : Nat → Bool) :
    emittedResults (performSearch engine sic fileQuery c requests taskCanceled false) =
      (sortResults
          (((taskRuns engine sic c taskCanceled 0
                (requests.filter (fun r => fileQuery r.url))).map Prod.snd).filterMap id)).filter
        (fun res => 0 < res.matchesCount) := by
  have htask :
      emittedResults
          (((taskRuns engine sic c taskCanceled 0
              (requests.filter (fun r => fileQuery r.url))).map Prod.fst).flatten) = [] := by
    rw [emittedResults, List.filterMap_eq_nil_iff]
    intro e he
    rw [eq_worked_of_mem_taskEvents engine sic c taskCanceled 0 _ e he]
  rw [performSearch]
  simp only [Bool.false_eq_true, if_false]
  rw [emittedResults, List.filterMap_cons]
  simp only [List.filterMap_append]
  rw [← emittedResults, ← emittedResults, htask, emittedResults_emitEvents]
  rfl

/-- C4: in every uncanceled run the results delivered to `onResult`
are in ascending label order under the comparator, whatever the
per-task cancellation polls returned; in particular a concrete run
over requests labelled c.js, a.js, b.js delivers a.js, b.js, c.js. -/
theorem sorted_result_emission
    (engine : RegExpEngine) (sic : SearchInContent) (fileQuery : String → Bool)
    (c : SearchConfig) (requests : List NetworkRequest) (taskCanceled : Nat → Bool)
    (finalCanceled : Bool) (hc : finalCanceled = false) :
    List.Sorted (fun r1 r2 => resultLE r1 r2 = true)
        (emittedResults
          (performSearch engine sic fileQuery c requests taskCanceled finalCanceled)) ∧
      (emittedResults
            (performSearch literalEngine sicNone (fun _ => true) cfg0 [rC, rA, rB]
              (fun _ => false) false)).map NetworkSearchResult.label
        = ["a.js", "b.js", "c.js"] := by
  subst hc
  refine ⟨?_, by decide⟩
  rw [emittedResults_performSearch]
  haveI : IsTotal NetworkSearchResult (fun r1 r2 => resultLE r1 r2 = true) :=
    ⟨fun a b => resultLE_total a b⟩
  haveI : IsTrans NetworkSearchResult (fun r1 r2 => resultLE r1 r2 = true) :=
    ⟨fun a b c => resultLE_trans a b c⟩
  exact List.Sorted.filter _ (List.sorted_insertionSort _ _)

/-- Witness for C4: the three-request run itself, with the final poll
uncanceled. -/
theorem sorted_result_emission_witness :
    List.Sorted (fun r1 r2 => resultLE r1 r2 = true)
        (emittedResults
          (performSearch literalEngine sicNone (fun _ => true) cfg0 [rC, rA, rB]
            (fun _ => false) false)) ∧
      (emittedResults
            (performSearch literalEngine sicNone (fun _ => true) cfg0 [rC, rA, rB]
              (fun _ => false) false)).map NetworkSearchResult.label
        = ["a.js", "b.js", "c.js"] :=
  sorted_result_emission literalEngine sicNone (fun _ => true) cfg0 [rC, rA, rB]
    (fun _ => false) false rfl

/-- C8: in every uncanceled run, every result delivered to `onResult`
has a positive match count; zero-location results never reach the
sink. -/
theorem emitted_results_have_matches
    (engine : RegExpEngine) (sic : SearchInContent) (fileQuery : String → Bool)
    (c : SearchConfig) (requests : List NetworkRequest) (taskCanceled : Nat → Bool)
    (finalCanceled : Bool) (hc : finalCanceled = false) (res : NetworkSearchResult)
    (hmem : Event.result res ∈
      performSearch engine sic fileQuery c requests taskCanceled finalCanceled) :
    0 < res.matchesCount := by
  subst hc
  have hres : res ∈
      emittedResults (performSearch engine sic fileQuery c requests taskCanceled false) :=
    List.mem_filterMap.mpr ⟨Event.result res, hmem, rfl⟩
  rw [emittedResults_performSearch] at hres
  have := (List.mem_filter.mp hres).2
  exact of_decide_eq_true this

/-- Witness for C8: in a concrete uncanceled run the result for `rA`
is delivered and has one location. -/
theorem emitted_results_have_matches_witness :
    Event.result resA0 ∈
        performSearch literalEngine sicNone (fun _ => true) cfg0 [rA] (fun _ => false) false ∧
      0 < resA0.matchesCount :=
  ⟨by decide,
    emitted_results_have_matches literalEngine sicNone (fun _ => true) cfg0 [rA]
      (fun _ => false) false rfl resA0 (by decide)⟩

/-- Filtering a location list of uniform kind by that kind keeps it. -/
theorem filter_locKind_eq_self {L : List UIRequestLocation} {k : Nat}
    (h : ∀ l ∈ L, locKind l = k) : L.filter (fun l => locKind l == k) = L :=
  List.filter_eq_self.mpr (fun a ha => by rw [h a ha]; exact beq_self_eq_true k)

/-- Filtering a location list of uniform kind by a different kind
empties it. -/
theorem filter_locKind_eq_nil {L : List UIRequestLocation} {j k : Nat} (hjk : j ≠ k)
    (h : ∀ l ∈ L, locKind l = j) : L.filter (fun l => locKind l == k) = [] :=
  List.filter_eq_nil_iff.mpr (fun a ha => by rw [h a ha]; simp [hjk])

/-- C5: the per-candidate location list is ordered by discovery kind —
URL match first, then matching request headers in their given order,
then matching response headers in their given order, then body matches
in discovery order; in particular a candidate whose URL, one request
header and one body line match yields [url, header, body]. -/
theorem match_location_order (engine : RegExpEngine) (c : SearchConfig)
    (r : NetworkRequest) (body : List SearchMatch) :
    List.Sorted (· ≤ ·) ((searchRequestLocations engine c r body).map locKind) ∧
      (searchRequestLocations engine c r body).filter (fun l => locKind l == 0)
        = urlLocations engine c r ∧
      (searchRequestLocations engine c r body).filter (fun l => locKind l == 1)
        = requestHeaderLocations engine c r ∧
      (searchRequestLocations engine c r body).filter (fun l => locKind l == 2)
        = responseHeaderLocations engine c r ∧
      (searchRequestLocations engine c r body).filter (fun l => locKind l == 3)
        = bodyLocations r body ∧
      searchRequestLocations literalEngine cfgEx rEx [mEx]
        = [UIRequestLocation.urlMatch rEx, UIRequestLocation.requestHeaderMatch rEx (some hEx),
            UIRequestLocation.bodyMatch rEx (some mEx)] := by
  have hu : ∀ l ∈ urlLocations engine c r, locKind l = 0 := by
    intro l hl
    rw [urlLocations] at hl
    split at hl
    · rw [List.mem_singleton] at hl; subst hl; rfl
    · exact absurd hl (List.not_mem_nil l)
  have hq : ∀ l ∈ requestHeaderLocations engine c r, locKind l = 1 := by
    intro l hl
    obtain ⟨h, -, rfl⟩ := List.mem_map.mp hl
    rfl
  have hs : ∀ l ∈ responseHeaderLocations engine c r, locKind l = 2 := by
    intro l hl
    obtain ⟨h, -, rfl⟩ := List.mem_map.mp hl
    rfl
  have hb : ∀ l ∈ bodyLocations r body, locKind l = 3 := by
    intro l hl
    obtain ⟨m, -, rfl⟩ := List.mem_map.mp hl
    rfl
  have kindOf : ∀ (L : List UIRequestLocation) (k : Nat), (∀ l ∈ L, locKind l = k) →
      ∀ a ∈ L.map locKind, a = k := by
    intro L k hk a ha
    obtain ⟨l, hl, rfl⟩ := List.mem_map.mp ha
    exact hk l hl
  refine ⟨?_, ?_, ?_, ?_, ?_, by decide⟩
  · show List.Pairwise (· ≤ ·) _
    rw [searchRequestLocations]
    simp only [List.map_append]
    rw [List.pairwise_append, List.pairwise_append, List.pairwise_append]
    have pconst : ∀ (L : List UIRequestLocation) (k : Nat), (∀ l ∈ L, locKind l = k) →
        List.Pairwise (· ≤ ·) (L.map locKind) := by
      intro L k hk
      exact List.pairwise_of_forall_mem_list
        (fun a ha b hbm => by rw [kindOf L k hk a ha, kindOf L k hk b hbm])
    refine ⟨⟨⟨pconst _ 0 hu, pconst _ 1 hq, ?_⟩, pconst _ 2 hs, ?_⟩, pconst _ 3 hb, ?_⟩
    · intro a ha b hbm
      rw [kindOf _ 0 hu a ha, kindOf _ 1 hq b hbm]
      omega
    · intro a ha b hbm
      rw [kindOf _ 2 hs b hbm]
      rcases List.mem_append.mp ha with ha | ha
      · rw [kindOf _ 0 hu a ha]; omega
      · rw [kindOf _ 1 hq a ha]; omega
    · intro a ha b hbm
      rw [kindOf _ 3 hb b hbm]
      rcases List.mem_append.mp ha with ha | ha
      · rcases List.mem_append.mp ha with ha | ha
        · rw [kindOf _ 0 hu a ha]; omega
        · rw [kindOf _ 1 hq a ha]; omega
      · rw [kindOf _ 2 hs a ha]; omega
  · rw [searchRequestLocations]
    simp only [List.filter_append]
    rw [filter_locKind_eq_self hu, filter_locKind_eq_nil (by omega) hq,
      filter_locKind_eq_nil (by omega) hs, filter_locKind_eq_nil (by omega) hb]
    simp
  · rw [searchRequestLocations]
    simp only [List.filter_append]
    rw [filter_locKind_eq_self hq, filter_locKind_eq_nil (by omega) hu,
      filter_locKind_eq_nil (by omega) hs, filter_locKind_eq_nil (by omega) hb]
    simp
  · rw [searchRequestLocations]
    simp only [List.filter_append]
    rw [filter_locKind_eq_self hs, filter_locKind_eq_nil (by omega) hu,
      filter_locKind_eq_nil (by omega) hq, filter_locKind_eq_nil (by omega) hb]
    simp
  · rw [searchRequestLocations]
    simp only [List.filter_append]
    rw [filter_locKind_eq_self hb, filter_locKind_eq_nil (by omega) hu,
      filter_locKind_eq_nil (by omega) hq, filter_locKind_eq_nil (by omega) hs]
    simp

/-- C9: each of the four static constructors sets exactly one
discriminating field, and the accessors resolve each constructor's
output to its own kind of line content and label. -/
theorem location_variant_unique (r : NetworkRequest) (h : NameValue) (m : SearchMatch) :
    variantCount (UIRequestLocation.urlMatch r) = 1 ∧
      variantCount (UIRequestLocation.requestHeaderMatch r (some h)) = 1 ∧
      variantCount (UIRequestLocation.responseHeaderMatch r (some h)) = 1 ∧
      variantCount (UIRequestLocation.bodyMatch r (some m)) = 1 ∧
      NetworkSearchResult.matchLineContent ⟨r, [UIRequestLocation.urlMatch r]⟩ 0
        = some r.url ∧
      NetworkSearchResult.matchLineContent ⟨r, [UIRequestLocation.requestHeaderMatch r (some h)]⟩ 0
        = some h.value ∧
      NetworkSearchResult.matchLineContent ⟨r, [UIRequestLocation.responseHeaderMatch r (some h)]⟩ 0
        = some h.value ∧
      NetworkSearchResult.matchLineContent ⟨r, [UIRequestLocation.bodyMatch r (some m)]⟩ 0
        = some m.lineContent ∧
      NetworkSearchResult.matchLabel ⟨r, [UIRequestLocation.urlMatch r]⟩ 0
        = some (Sum.inl "URL") ∧
      NetworkSearchResult.matchLabel ⟨r, [UIRequestLocation.requestHeaderMatch r (some h)]⟩ 0
        = some (Sum.inl (h.name ++ ":")) ∧
      NetworkSearchResult.matchLabel ⟨r, [UIRequestLocation.responseHeaderMatch r (some h)]⟩ 0
        = some (Sum.inl (h.name ++ ":")) ∧
      NetworkSearchResult.matchLabel ⟨r, [UIRequestLocation.bodyMatch r (some m)]⟩ 0
        = some (Sum.inr (m.lineNumber + 1)) :=
  ⟨rfl, rfl, rfl, rfl, rfl, rfl, rfl, rfl, rfl, rfl, rfl, rfl⟩
